import Mathlib

/-!
Verification of the deej device-input pipeline (`pkg/deej/config.go` and the
serial session source): the configuration manager and the serial-line
interaction state machine, embedded shallowly.

Modelling conventions:
* Go `map[string]SliderMapping` is an association list `List (String × SliderMapping)`
  with unique keys; reading a missing key yields the zero value, as in Go.
  Go's randomized map iteration order is fixed to list order here.
* Go `float32` volumes are modelled as exact rationals `Rat`; all volume
  arithmetic in the source (`±0.01`, clamping, `!=` comparison) is exact enough
  on `[0, 1]` that the rational model matches the float behaviour.
* Go `int` is modelled as `Int` (no overflow is reachable in these functions).
* File I/O and YAML parsing are modelled by a `FileState` input describing the
  outcome of `os.Open` plus the parse stage; the field-level decoding with
  `KnownFields(true)` is modelled from the yaml.v3 decoder contract.
* Channel sends and config write-backs performed by `handleLine` are recorded
  as an ordered trace of `Action`s, so temporal claims become list statements.
-/

/-- `SliderMapping` from config.go: one named slider's state. -/
structure SliderMapping where
  volume : Rat
  muted : Bool
  targets : List String
deriving DecidableEq

/-- The Go zero value `SliderMapping{}` (returned by lookups that fail). -/
def zeroSliderMapping : SliderMapping :=
  { volume := 0, muted := false, targets := [] }

/-- `ConnectionInfo` from config.go. -/
structure ConnectionInfo where
  serialPort : String
  baudRate : Nat
deriving DecidableEq

/-- `Config` from config.go: the whole configuration aggregate. -/
structure Config where
  sliderMappings : List (String × SliderMapping)
  invertSliders : Bool
  connectionInfo : ConnectionInfo
  noiseReductionLevel : String
  configSaveInterval : Int
deriving DecidableEq

/-- The `&Config{...}` literal assigned in `Load` before decoding: save
interval 60, port "COM4", baud 9600, everything else the Go zero value. -/
def defaultConfig : Config :=
  { sliderMappings := []
    invertSliders := false
    connectionInfo := { serialPort := "COM4", baudRate := 9600 }
    noiseReductionLevel := ""
    configSaveInterval := 60 }

/-- Go map assignment `m[key] = v`: replace the binding in place if the key is
present, else add a new binding. -/
def mapInsert (key : String) (v : SliderMapping) :
    List (String × SliderMapping) → List (String × SliderMapping)
  | [] => [(key, v)]
  | (k, w) :: rest =>
    if k = key then (key, v) :: rest else (k, w) :: mapInsert key v rest

/-- In-memory portion of `ConfigManager` relevant to the claims: the current
`Config`, the ordered slider key slice, and the dirty flag. -/
structure ConfigManager where
  config : Config
  orderedSliderKeys : List String
  configModified : Bool
deriving DecidableEq

/-- `ConfigManager.getSliderMappingByKey`: returns the mapping and an error
message; on a missing key it returns the zero value and an error, exactly as
the source does. -/
def getSliderMappingByKey (cm : ConfigManager) (key : String) :
    SliderMapping × Option String :=
  match List.lookup key cm.config.sliderMappings with
  | none => (zeroSliderMapping, some "not found")
  | some m => (m, none)

/-- `ConfigManager.getSliderMappingByIndex`: bounds-checks against the ordered
key slice, then reads the Go map (zero value if the key is somehow absent). -/
def getSliderMappingByIndex (cm : ConfigManager) (index : Int) :
    SliderMapping × Option String :=
  if index < 0 ∨ (cm.orderedSliderKeys.length : Int) ≤ index then
    (zeroSliderMapping, some "invalid index")
  else
    let key := cm.orderedSliderKeys.getD index.toNat ""
    ((List.lookup key cm.config.sliderMappings).getD zeroSliderMapping, none)

/-- `ConfigManager.getSliderMappingKeyByIndex`: the key at an index of the
ordered slice, or the zero string plus an error when out of range. -/
def getSliderMappingKeyByIndex (cm : ConfigManager) (index : Int) :
    String × Option String :=
  if index < 0 ∨ (cm.orderedSliderKeys.length : Int) ≤ index then
    ("", some "index out of range")
  else
    (cm.orderedSliderKeys.getD index.toNat "", none)

/-- `ConfigManager.getSliderMappingCount`: `len(cm.Config.SliderMappings)`. -/
def getSliderMappingCount (cm : ConfigManager) : Int :=
  (cm.config.sliderMappings.length : Int)

/-- `ConfigManager.UpdateSliderMappingByKey`: Go map assignment plus setting
the dirty flag. Note the ordered key slice is not touched. -/
def updateSliderMappingByKey (cm : ConfigManager) (key : String)
    (m : SliderMapping) : ConfigManager :=
  { cm with
    config := { cm.config with sliderMappings := mapInsert key m cm.config.sliderMappings }
    configModified := true }

/-- `ConfigManager.UpdateSliderMappingByIndex`: indexes the ordered key slice
without a bounds check; the Go slice access panics when out of range, modelled
as `none`. -/
def updateSliderMappingByIndex (cm : ConfigManager) (index : Int)
    (m : SliderMapping) : Option ConfigManager :=
  if 0 ≤ index ∧ index < (cm.orderedSliderKeys.length : Int) then
    some (updateSliderMappingByKey cm (cm.orderedSliderKeys.getD index.toNat "") m)
  else
    none

/-! ## The YAML decode stage

Modelled from the gopkg.in/yaml.v3 decoder contract as configured by `Load`
(`decoder.KnownFields(true)`): after a successful parse, the document's
fields are decoded one by one over the default-initialized struct; an
unknown key or ill-typed value at any level is recorded as a type error and
skipped, decoding *continues* with the remaining fields, and `Decode`
returns the accumulated `*TypeError` at the end — so a failed decode still
leaves every successfully decoded field in the struct. Unparseable content
fails at the parse stage before anything is written. Each decoder below
therefore returns the (possibly partially) decoded value together with an
error flag. (Mappings are assumed to have distinct keys, as yaml.v3 rejects
duplicates.) -/

/-- A parsed YAML value (scalars, sequences, mappings). -/
inductive YamlValue where
  | ynum : Rat → YamlValue
  | ystr : String → YamlValue
  | ybool : Bool → YamlValue
  | ylist : List YamlValue → YamlValue
  | ymap : List (String × YamlValue) → YamlValue

/-- Decode a YAML sequence into a `[]string` field (the `targets` field):
elements are decoded one by one; a non-string element is a type error and is
skipped while the remaining elements are kept. -/
def decodeStringList : List YamlValue → List String × Bool
  | [] => ([], false)
  | YamlValue.ystr s :: rest =>
    let res := decodeStringList rest
    (s :: res.1, res.2)
  | _ :: rest =>
    let res := decodeStringList rest
    (res.1, true)

/-- Decode the fields of one `SliderMapping` (known fields: `volume`,
`muted`, `targets`); an unknown key or ill-typed value flags an error and is
skipped, the remaining fields are still decoded. -/
def decodeSliderMappingFields (m : SliderMapping) :
    List (String × YamlValue) → SliderMapping × Bool
  | [] => (m, false)
  | (k, v) :: rest =>
    if k = "volume" then
      match v with
      | YamlValue.ynum q => decodeSliderMappingFields { m with volume := q } rest
      | _ =>
        let res := decodeSliderMappingFields m rest
        (res.1, true)
    else if k = "muted" then
      match v with
      | YamlValue.ybool b => decodeSliderMappingFields { m with muted := b } rest
      | _ =>
        let res := decodeSliderMappingFields m rest
        (res.1, true)
    else if k = "targets" then
      match v with
      | YamlValue.ylist vs =>
        let ts := decodeStringList vs
        let res := decodeSliderMappingFields { m with targets := ts.1 } rest
        (res.1, ts.2 || res.2)
      | _ =>
        let res := decodeSliderMappingFields m rest
        (res.1, true)
    else
      let res := decodeSliderMappingFields m rest
      (res.1, true)

/-- Decode the `slider_mappings` mapping: each entry whose value is itself a
mapping is decoded field-wise over the zero value and inserted (even when
some of its fields errored); an entry whose value is not a mapping is a type
error and is skipped. -/
def decodeSliderMappings :
    List (String × YamlValue) → List (String × SliderMapping) × Bool
  | [] => ([], false)
  | (name, YamlValue.ymap fields) :: rest =>
    let sm := decodeSliderMappingFields zeroSliderMapping fields
    let res := decodeSliderMappings rest
    ((name, sm.1) :: res.1, sm.2 || res.2)
  | _ :: rest =>
    let res := decodeSliderMappings rest
    (res.1, true)

/-- Decode the fields of `ConnectionInfo` (known fields: `serial_port`,
`baud_rate`); unknown or ill-typed fields flag an error and are skipped. -/
def decodeConnectionInfoFields (ci : ConnectionInfo) :
    List (String × YamlValue) → ConnectionInfo × Bool
  | [] => (ci, false)
  | (k, v) :: rest =>
    if k = "serial_port" then
      match v with
      | YamlValue.ystr s => decodeConnectionInfoFields { ci with serialPort := s } rest
      | _ =>
        let res := decodeConnectionInfoFields ci rest
        (res.1, true)
    else if k = "baud_rate" then
      match v with
      | YamlValue.ynum q =>
        if q.den = 1 ∧ 0 ≤ q.num then
          decodeConnectionInfoFields { ci with baudRate := q.num.toNat } rest
        else
          let res := decodeConnectionInfoFields ci rest
          (res.1, true)
      | _ =>
        let res := decodeConnectionInfoFields ci rest
        (res.1, true)
    else
      let res := decodeConnectionInfoFields ci rest
      (res.1, true)

/-- Decode the top-level `Config` fields over the default-initialized
struct; an unknown top-level key or ill-typed value flags an error and is
skipped while the remaining fields are still decoded. -/
def decodeConfigFields (cfg : Config) :
    List (String × YamlValue) → Config × Bool
  | [] => (cfg, false)
  | (k, v) :: rest =>
    if k = "slider_mappings" then
      match v with
      | YamlValue.ymap kvs =>
        let ms := decodeSliderMappings kvs
        let res := decodeConfigFields { cfg with sliderMappings := ms.1 } rest
        (res.1, ms.2 || res.2)
      | _ =>
        let res := decodeConfigFields cfg rest
        (res.1, true)
    else if k = "invert_sliders" then
      match v with
      | YamlValue.ybool b => decodeConfigFields { cfg with invertSliders := b } rest
      | _ =>
        let res := decodeConfigFields cfg rest
        (res.1, true)
    else if k = "connection_info" then
      match v with
      | YamlValue.ymap kvs =>
        let ci := decodeConnectionInfoFields cfg.connectionInfo kvs
        let res := decodeConfigFields { cfg with connectionInfo := ci.1 } rest
        (res.1, ci.2 || res.2)
      | _ =>
        let res := decodeConfigFields cfg rest
        (res.1, true)
    else if k = "noise_reduction_level" then
      match v with
      | YamlValue.ystr s => decodeConfigFields { cfg with noiseReductionLevel := s } rest
      | _ =>
        let res := decodeConfigFields cfg rest
        (res.1, true)
    else if k = "config_save_interval" then
      match v with
      | YamlValue.ynum q =>
        if q.den = 1 then decodeConfigFields { cfg with configSaveInterval := q.num } rest
        else
          let res := decodeConfigFields cfg rest
          (res.1, true)
      | _ =>
        let res := decodeConfigFields cfg rest
        (res.1, true)
    else
      let res := decodeConfigFields cfg rest
      (res.1, true)

/-! ## `ConfigManager.Load` -/

/-- Outcome of the `os.Open` / parse stage that `Load` interacts with:
the file is absent, opening fails for another reason, the content is not
parseable YAML, or it parses to a top-level mapping. -/
inductive FileState where
  | absent : FileState
  | openFailure : String → FileState
  | malformed : FileState
  | doc : List (String × YamlValue) → FileState

/-- Error classes `Load` can return. -/
inductive LoadError where
  | notFound : LoadError
  | openFailed : LoadError
  | decodeFailed : LoadError
deriving DecidableEq

/-- Result of a `Load` call: the manager state after the call, the returned
error (`none` on success), and whether a user-facing notification was raised. -/
structure LoadResult where
  cm : ConfigManager
  result : Option LoadError
  notified : Bool

/-- `ConfigManager.Load`, faithful to the source order of effects: a failed
open leaves the state alone (notifying only in the not-found case); once the
file is open, `cm.Config` is overwritten with the defaults-initialized
struct *before* decoding, so after a parse failure that fresh struct is in
place, and after a decode error the fresh struct overlaid with every field
that did decode (yaml.v3 decodes partially before returning its
`*TypeError`) — in no failure past the open is the previous `Config`
retained, and the stale ordered key slice is left untouched; on a successful
decode the ordered key slice is rebuilt from the decoded mapping (Go
iterates the map; the model uses document order). -/
def load (cm : ConfigManager) (file : FileState) : LoadResult :=
  match file with
  | FileState.absent => { cm := cm, result := some LoadError.notFound, notified := true }
  | FileState.openFailure _ => { cm := cm, result := some LoadError.openFailed, notified := false }
  | FileState.malformed =>
    { cm := { cm with config := defaultConfig }
      result := some LoadError.decodeFailed
      notified := false }
  | FileState.doc entries =>
    let res := decodeConfigFields defaultConfig entries
    if res.2 = true then
      { cm := { cm with config := res.1 }
        result := some LoadError.decodeFailed
        notified := false }
    else
      { cm := { cm with
                config := res.1
                orderedSliderKeys := res.1.sliderMappings.map Prod.fst }
        result := none
        notified := false }

/-! ## The serial session (`SerialIO.handleLine`)

The interpretation state lives in package-level variables in the source
(`currentSliderIndex`, `currentSliderName`, `wantedValue`, `isButtonHeld`,
`needToUpdate`); together with the `ConfigManager` they form the session
state here. Channel sends to the `sliderMoveConsumers` and write-backs into
the `ConfigManager` are recorded in an ordered trace; consumers are numbered
`0, 1, …` in subscription order. -/

/-- `SliderMoveEvent` from the serial source. -/
structure SliderMoveEvent where
  sliderID : String
  percentValue : Rat
deriving DecidableEq

/-- One observable effect of `handleLine`: delivery of an event to a
numbered consumer channel, or a `UpdateSliderMappingByKey` write-back. -/
inductive Effect where
  | send : Nat → SliderMoveEvent → Effect
  | writeBack : String → SliderMapping → Effect
deriving DecidableEq

/-- State touched by `handleLine`: the config manager plus the package-level
interpretation variables and the number of subscribed move consumers. -/
structure SessionState where
  cm : ConfigManager
  currentSliderIndex : Int
  currentSliderName : String
  wantedValue : Rat
  isButtonHeld : Bool
  needToUpdate : Bool
  numConsumers : Nat
deriving DecidableEq

/-- The package-level variable initializers: index 0, empty name, wanted 0.0,
button not held, no pending update. -/
def initialSessionState (cm : ConfigManager) (consumers : Nat) : SessionState :=
  { cm := cm
    currentSliderIndex := 0
    currentSliderName := ""
    wantedValue := 0
    isButtonHeld := false
    needToUpdate := false
    numConsumers := consumers }

/-- `expectedLinePattern` (`^[lrud]\n$`): the regex is anchored at both ends,
so it accepts exactly the four two-character strings below; in particular a
CRLF-terminated token does not match. -/
def expectedLinePatternMatch (s : String) : Bool :=
  s = "l\n" || s = "r\n" || s = "u\n" || s = "d\n"

/-- `strings.TrimSuffix(line, "\n")`. -/
def trimSuffixLF (s : String) : String :=
  if s.endsWith "\n" then s.dropRight 1 else s

/-- The `switch line` statement of `handleLine`: updates the interpretation
variables; never touches the config manager. (The `d` case also calls
`getSliderMappingKeys` purely for logging, with no state effect.) -/
def handleToken (st : SessionState) (token : String) : SessionState :=
  if token = "l" then
    if st.isButtonHeld = true then
      let idx0 := st.currentSliderIndex - 1
      let idx := if idx0 < 0 then 0 else idx0
      let sm := (getSliderMappingByIndex st.cm idx).1
      let name := (getSliderMappingKeyByIndex st.cm idx).1
      { st with currentSliderIndex := idx, wantedValue := sm.volume, currentSliderName := name }
    else
      let sm := (getSliderMappingByKey st.cm st.currentSliderName).1
      let w0 := sm.volume - 1/100
      let w := if w0 < 0 then 0 else w0
      { st with wantedValue := w, needToUpdate := true }
  else if token = "r" then
    if st.isButtonHeld = true then
      let idx1 := st.currentSliderIndex + 1
      let idx2 := if idx1 > 1024 then 1024 else idx1
      let cnt := getSliderMappingCount st.cm
      let idx := if idx2 > cnt then cnt else idx2
      let sm := (getSliderMappingByIndex st.cm idx).1
      let name := (getSliderMappingKeyByIndex st.cm idx).1
      { st with currentSliderIndex := idx, wantedValue := sm.volume, currentSliderName := name }
    else
      let sm := (getSliderMappingByKey st.cm st.currentSliderName).1
      let w0 := sm.volume + 1/100
      let w := if w0 > 1 then 1 else w0
      { st with wantedValue := w, needToUpdate := true }
  else if token = "d" then
    { st with isButtonHeld := true, needToUpdate := false }
  else if token = "u" then
    { st with
      isButtonHeld := false
      needToUpdate := false
      currentSliderName := (getSliderMappingKeyByIndex st.cm st.currentSliderIndex).1 }
  else
    st

/-- The `moveEvents` slice built after the switch: one event when an update is
pending and the wanted value differs from the mapping at the current index. -/
def computeMoveEvents (st : SessionState) : List SliderMoveEvent :=
  let sm := (getSliderMappingByIndex st.cm st.currentSliderIndex).1
  if st.needToUpdate = true ∧ st.wantedValue ≠ sm.volume then
    [{ sliderID := st.currentSliderName, percentValue := st.wantedValue }]
  else
    []

/-- The body of the inner `for _, moveEvent := range moveEvents` loop for one
consumer: send the event, then read the mapping by key, set its volume, and
write it back. -/
def deliverEvents (cm : ConfigManager) (consumer : Nat) :
    List SliderMoveEvent → ConfigManager × List Effect
  | [] => (cm, [])
  | ev :: rest =>
    let sm := (getSliderMappingByKey cm ev.sliderID).1
    let sm' := { sm with volume := ev.percentValue }
    let cm1 := updateSliderMappingByKey cm ev.sliderID sm'
    let res := deliverEvents cm1 consumer rest
    (res.1, Effect.send consumer ev :: Effect.writeBack ev.sliderID sm' :: res.2)

/-- The outer `for _, consumer := range sio.sliderMoveConsumers` loop,
starting at consumer number `i` with `n` consumers remaining. -/
def fanoutFrom (cm : ConfigManager) (events : List SliderMoveEvent)
    (i : Nat) : Nat → ConfigManager × List Effect
  | 0 => (cm, [])
  | n + 1 =>
    let res1 := deliverEvents cm i events
    let res2 := fanoutFrom res1.1 events (i + 1) n
    (res2.1, res1.2 ++ res2.2)

/-- `SerialIO.handleLine`: discard lines that do not match the pattern, trim
the LF, run the switch, build `moveEvents`, and (when non-empty) deliver them
to every consumer, writing the value back after each send. -/
def handleLine (st : SessionState) (line : String) : SessionState × List Effect :=
  if expectedLinePatternMatch line = true then
    let st1 := handleToken st (trimSuffixLF line)
    let events := computeMoveEvents st1
    let res :=
      if events.length > 0 then fanoutFrom st1.cm events 0 st1.numConsumers
      else (st1.cm, ([] : List Effect))
    ({ st1 with cm := res.1 }, res.2)
  else
    (st, [])

/-- Feed a list of lines through `handleLine`, concatenating the traces. -/
def processLines (st : SessionState) : List String → SessionState × List Effect
  | [] => (st, [])
  | line :: rest =>
    let res1 := handleLine st line
    let res2 := processLines res1.1 rest
    (res2.1, res1.2 ++ res2.2)

/-! ## Derived predicates and concrete fixtures -/

/-- The key set of the Go map underlying a `ConfigManager`. -/
def keysOf (cm : ConfigManager) : List String :=
  cm.config.sliderMappings.map Prod.fst

/-- Boolean equality of two key lists as sets. -/
def sameKeys (a b : List String) : Bool :=
  a.all (fun k => b.contains k) && b.all (fun k => a.contains k)

/-- The session points at a valid position of the ordered key slice and the
cached `currentSliderName` is the key at that position. -/
def IndexConsistent (st : SessionState) : Prop :=
  0 ≤ st.currentSliderIndex ∧
  st.currentSliderIndex < (st.cm.orderedSliderKeys.length : Int) ∧
  (getSliderMappingKeyByIndex st.cm st.currentSliderIndex).1 = st.currentSliderName

/-- Every stored slider volume lies in the canonical range `[0, 1]`. -/
def VolumesInRange (cm : ConfigManager) : Prop :=
  ∀ p ∈ cm.config.sliderMappings, 0 ≤ p.2.volume ∧ p.2.volume ≤ 1

/-- Recognize a delivery to consumer number `i`. -/
def isSendTo (i : Nat) : Effect → Bool
  | Effect.send j _ => j = i
  | Effect.writeBack _ _ => false

/-- Recognize a config write-back effect. -/
def isWriteBack : Effect → Bool
  | Effect.send _ _ => false
  | Effect.writeBack _ _ => true

/-- Number of write-backs in a trace. -/
def countWriteBacks (tr : List Effect) : Nat :=
  (tr.filter isWriteBack).length

/-- The mapping value written back for event `ev` against manager state `cm`:
the mapping read by key with its volume replaced (the loop body of
`handleLine`'s delivery loop). -/
def wbMapping (cm : ConfigManager) (ev : SliderMoveEvent) : SliderMapping :=
  { (getSliderMappingByKey cm ev.sliderID).1 with volume := ev.percentValue }

/-- Fixture: the spec's three-slider configuration, every volume 0.5. -/
def cmABC : ConfigManager :=
  { config := { defaultConfig with sliderMappings :=
      [("master", { volume := 1/2, muted := false, targets := ["master"] }),
       ("game", { volume := 1/2, muted := false, targets := ["game.exe"] }),
       ("chat", { volume := 1/2, muted := false, targets := ["chat.exe"] })] }
    orderedSliderKeys := ["master", "game", "chat"]
    configModified := false }

/-- Fixture: a freshly started session over `cmABC` (package-variable
initial values) with one move-event subscriber. -/
def stFresh : SessionState := initialSessionState cmABC 1

/-- Fixture: a session over `cmABC` whose cached name agrees with index 0,
with a chosen number of subscribers. -/
def stABC (consumers : Nat) : SessionState :=
  { cm := cmABC
    currentSliderIndex := 0
    currentSliderName := "master"
    wantedValue := 1/2
    isButtonHeld := false
    needToUpdate := false
    numConsumers := consumers }

/-- Fixture: 1025 distinct single-character slider names. -/
def bigKeys : List String :=
  (List.range 1025).map (fun n => String.mk [Char.ofNat (100 + n)])

/-- Fixture: a mapping entry for every key in `bigKeys`, volume 0.5. -/
def bigMappings : List (String × SliderMapping) :=
  bigKeys.map (fun k => (k, { volume := 1/2, muted := false, targets := [] }))

/-- Fixture: a `ConfigManager` with 1025 sliders. -/
def cmBig : ConfigManager :=
  { config := { defaultConfig with sliderMappings := bigMappings }
    orderedSliderKeys := bigKeys
    configModified := false }

/-- Fixture: a session over `cmBig` positioned at the last slider
(index 1024). -/
def stBig : SessionState :=
  { cm := cmBig
    currentSliderIndex := 1024
    currentSliderName := String.mk [Char.ofNat 1124]
    wantedValue := 1/2
    isButtonHeld := false
    needToUpdate := false
    numConsumers := 0 }

/-- The known top-level YAML keys of `Config` (from its yaml struct tags). -/
def knownTopLevelKeys : List String :=
  ["slider_mappings", "invert_sliders", "connection_info", "noise_reduction_level",
   "config_save_interval"]

/-- The known YAML keys of `SliderMapping`. -/
def knownSliderMappingKeys : List String := ["volume", "muted", "targets"]

/-- The known YAML keys of `ConnectionInfo`. -/
def knownConnectionInfoKeys : List String := ["serial_port", "baud_rate"]

/-! ## Helper lemmas -/

theorem lookup_mapInsert_self (key : String) (m : SliderMapping) :
    ∀ l : List (String × SliderMapping), List.lookup key (mapInsert key m l) = some m := by
  intro l
  induction l with
  | nil => simp [mapInsert, List.lookup_cons]
  | cons p rest ih =>
    obtain ⟨k, w⟩ := p
    by_cases h : k = key
    · simp [mapInsert, h, List.lookup_cons]
    · have hb : (key == k) = false := beq_false_of_ne (fun hc => h hc.symm)
      simp [mapInsert, h, List.lookup_cons, hb, ih]

theorem lookup_mapInsert_ne (key k' : String) (m : SliderMapping) (hne : k' ≠ key) :
    ∀ l : List (String × SliderMapping),
      List.lookup k' (mapInsert key m l) = List.lookup k' l := by
  intro l
  induction l with
  | nil => simp [mapInsert, List.lookup_cons, beq_false_of_ne hne]
  | cons p rest ih =>
    obtain ⟨k, w⟩ := p
    by_cases h : k = key
    · subst h
      simp [mapInsert, List.lookup_cons, beq_false_of_ne hne]
    · simp only [mapInsert, if_neg h, List.lookup_cons, ih]

theorem mapInsert_mapInsert_same (key : String) (m : SliderMapping) :
    ∀ l : List (String × SliderMapping),
      mapInsert key m (mapInsert key m l) = mapInsert key m l := by
  intro l
  induction l with
  | nil => simp [mapInsert]
  | cons p rest ih =>
    obtain ⟨k, w⟩ := p
    by_cases h : k = key
    · simp [mapInsert, h]
    · simp [mapInsert, h, ih]

theorem mapFst_mapInsert_of_mem (key : String) (m : SliderMapping) :
    ∀ l : List (String × SliderMapping), key ∈ l.map Prod.fst →
      (mapInsert key m l).map Prod.fst = l.map Prod.fst := by
  intro l
  induction l with
  | nil => simp
  | cons p rest ih =>
    obtain ⟨k, w⟩ := p
    intro hmem
    by_cases h : k = key
    · simp [mapInsert, h]
    · have : key ∈ rest.map Prod.fst := by
        rcases (List.mem_cons.mp hmem) with h1 | h1
        · exact absurd h1.symm h
        · exact h1
      simp [mapInsert, h, ih this]

theorem mapInsert_forall_volume (P : SliderMapping → Prop) (key : String) (m : SliderMapping)
    (hm : P m) : ∀ l : List (String × SliderMapping), (∀ p ∈ l, P p.2) →
      ∀ p ∈ mapInsert key m l, P p.2 := by
  intro l
  induction l with
  | nil =>
    intro _ p hp
    simp [mapInsert] at hp
    subst hp
    exact hm
  | cons q rest ih =>
    obtain ⟨k, w⟩ := q
    intro hall p hp
    by_cases h : k = key
    · simp [mapInsert, h] at hp
      rcases hp with hp | hp
      · subst hp; exact hm
      · exact hall p (List.mem_cons_of_mem _ hp)
    · simp only [mapInsert, if_neg h, List.mem_cons] at hp
      rcases hp with hp | hp
      · subst hp
        exact hall (k, w) (List.mem_cons_self _ _)
      · exact ih (fun q hq => hall q (List.mem_cons_of_mem _ hq)) p hp

theorem deliverEvents_single (cm : ConfigManager) (i : Nat) (ev : SliderMoveEvent) :
    deliverEvents cm i [ev] =
      (updateSliderMappingByKey cm ev.sliderID (wbMapping cm ev),
       [Effect.send i ev, Effect.writeBack ev.sliderID (wbMapping cm ev)]) := rfl

theorem wbMapping_update (cm : ConfigManager) (ev : SliderMoveEvent) :
    wbMapping (updateSliderMappingByKey cm ev.sliderID (wbMapping cm ev)) ev
      = wbMapping cm ev := by
  simp [wbMapping, getSliderMappingByKey, updateSliderMappingByKey, lookup_mapInsert_self]

theorem update_update_same (cm : ConfigManager) (key : String) (m : SliderMapping) :
    updateSliderMappingByKey (updateSliderMappingByKey cm key m) key m
      = updateSliderMappingByKey cm key m := by
  simp [updateSliderMappingByKey, mapInsert_mapInsert_same]

theorem fanoutFrom_single_cm (ev : SliderMoveEvent) :
    ∀ (n : Nat) (cm : ConfigManager) (i : Nat),
      (fanoutFrom cm [ev] i n).1 =
        if n = 0 then cm else updateSliderMappingByKey cm ev.sliderID (wbMapping cm ev) := by
  intro n
  induction n with
  | zero => intro cm i; simp [fanoutFrom]
  | succ n ih =>
    intro cm i
    simp only [fanoutFrom, deliverEvents_single, ih, wbMapping_update]
    by_cases h : n = 0
    · simp [h]
    · simp [h, update_update_same]

theorem fanoutFrom_single_trace (ev : SliderMoveEvent) :
    ∀ (n : Nat) (cm : ConfigManager) (i : Nat),
      (fanoutFrom cm [ev] i n).2 =
        (List.range' i n).flatMap
          (fun j => [Effect.send j ev, Effect.writeBack ev.sliderID (wbMapping cm ev)]) := by
  intro n
  induction n with
  | zero => intro cm i; simp [fanoutFrom]
  | succ n ih =>
    intro cm i
    simp [fanoutFrom, deliverEvents_single, ih, wbMapping_update, List.range'_succ]

theorem handleLine_d (st : SessionState) :
    handleLine st "d\n" = ({ st with isButtonHeld := true, needToUpdate := false }, []) := by
  with_unfolding_all rfl

theorem handleLine_u (st : SessionState) :
    handleLine st "u\n" =
      ({ st with
          isButtonHeld := false
          needToUpdate := false
          currentSliderName := (getSliderMappingKeyByIndex st.cm st.currentSliderIndex).1 }, []) := by
  with_unfolding_all rfl

theorem handleLine_l_held (cm : ConfigManager) (idx : Int) (name : String) (w : Rat) (nc : Nat) :
    handleLine ⟨cm, idx, name, w, true, false, nc⟩ "l\n" =
      (⟨cm, if idx - 1 < 0 then 0 else idx - 1,
        (getSliderMappingKeyByIndex cm (if idx - 1 < 0 then 0 else idx - 1)).1,
        (getSliderMappingByIndex cm (if idx - 1 < 0 then 0 else idx - 1)).1.volume,
        true, false, nc⟩, []) := by
  with_unfolding_all rfl

theorem handleLine_r_held (cm : ConfigManager) (idx : Int) (name : String) (w : Rat) (nc : Nat) :
    handleLine ⟨cm, idx, name, w, true, false, nc⟩ "r\n" =
      (⟨cm,
        if (if idx + 1 > 1024 then 1024 else idx + 1) > getSliderMappingCount cm then
          getSliderMappingCount cm
        else if idx + 1 > 1024 then 1024 else idx + 1,
        (getSliderMappingKeyByIndex cm
          (if (if idx + 1 > 1024 then 1024 else idx + 1) > getSliderMappingCount cm then
            getSliderMappingCount cm
          else if idx + 1 > 1024 then 1024 else idx + 1)).1,
        (getSliderMappingByIndex cm
          (if (if idx + 1 > 1024 then 1024 else idx + 1) > getSliderMappingCount cm then
            getSliderMappingCount cm
          else if idx + 1 > 1024 then 1024 else idx + 1)).1.volume,
        true, false, nc⟩, []) := by
  with_unfolding_all rfl

theorem computeMoveEvents_pending (cm : ConfigManager) (idx : Int) (name : String)
    (w' : Rat) (nc : Nat) :
    computeMoveEvents ⟨cm, idx, name, w', false, true, nc⟩ =
      if w' ≠ (getSliderMappingByIndex cm idx).1.volume then [⟨name, w'⟩] else [] := by
  simp [computeMoveEvents]

theorem processLines_nil (st : SessionState) : processLines st [] = (st, []) := rfl

theorem processLines_cons (st : SessionState) (line : String) (rest : List String) :
    processLines st (line :: rest) =
      ((processLines (handleLine st line).1 rest).1,
       (handleLine st line).2 ++ (processLines (handleLine st line).1 rest).2) := rfl

theorem handleLine_l_vol (cm : ConfigManager) (idx : Int) (name : String) (w : Rat)
    (ntu : Bool) (nc : Nat) :
    handleLine ⟨cm, idx, name, w, false, ntu, nc⟩ "l\n" =
      (let v := (getSliderMappingByKey cm name).1.volume
       let w' := if v - 1/100 < 0 then 0 else v - 1/100
       if w' ≠ (getSliderMappingByIndex cm idx).1.volume then
         (⟨(fanoutFrom cm [⟨name, w'⟩] 0 nc).1, idx, name, w', false, true, nc⟩,
          (fanoutFrom cm [⟨name, w'⟩] 0 nc).2)
       else
         (⟨cm, idx, name, w', false, true, nc⟩, [])) := by
  have h0 : handleLine ⟨cm, idx, name, w, false, ntu, nc⟩ "l\n" =
      (let v := (getSliderMappingByKey cm name).1.volume
       let w' := if v - 1/100 < 0 then 0 else v - 1/100
       let st1 : SessionState := ⟨cm, idx, name, w', false, true, nc⟩
       let events := computeMoveEvents st1
       let res := if events.length > 0 then fanoutFrom cm events 0 nc else (cm, ([] : List Effect))
       ({ st1 with cm := res.1 }, res.2)) := by
    with_unfolding_all rfl
  rw [h0]
  simp only [computeMoveEvents_pending]
  split <;> split <;> simp

theorem handleLine_r_vol (cm : ConfigManager) (idx : Int) (name : String) (w : Rat)
    (ntu : Bool) (nc : Nat) :
    handleLine ⟨cm, idx, name, w, false, ntu, nc⟩ "r\n" =
      (let v := (getSliderMappingByKey cm name).1.volume
       let w' := if v + 1/100 > 1 then 1 else v + 1/100
       if w' ≠ (getSliderMappingByIndex cm idx).1.volume then
         (⟨(fanoutFrom cm [⟨name, w'⟩] 0 nc).1, idx, name, w', false, true, nc⟩,
          (fanoutFrom cm [⟨name, w'⟩] 0 nc).2)
       else
         (⟨cm, idx, name, w', false, true, nc⟩, [])) := by
  have h0 : handleLine ⟨cm, idx, name, w, false, ntu, nc⟩ "r\n" =
      (let v := (getSliderMappingByKey cm name).1.volume
       let w' := if v + 1/100 > 1 then 1 else v + 1/100
       let st1 : SessionState := ⟨cm, idx, name, w', false, true, nc⟩
       let events := computeMoveEvents st1
       let res := if events.length > 0 then fanoutFrom cm events 0 nc else (cm, ([] : List Effect))
       ({ st1 with cm := res.1 }, res.2)) := by
    with_unfolding_all rfl
  rw [h0]
  simp only [computeMoveEvents_pending]
  split <;> split <;> simp

theorem sameKeys_iff (a b : List String) :
    sameKeys a b = true ↔ (∀ k, k ∈ a ↔ k ∈ b) := by
  constructor
  · intro h k
    simp only [sameKeys, Bool.and_eq_true, List.all_eq_true] at h
    exact ⟨fun hk => List.mem_of_elem_eq_true (h.1 k hk),
           fun hk => List.mem_of_elem_eq_true (h.2 k hk)⟩
  · intro h
    simp only [sameKeys, Bool.and_eq_true, List.all_eq_true]
    exact ⟨fun k hk => List.elem_eq_true_of_mem ((h k).mp hk),
           fun k hk => List.elem_eq_true_of_mem ((h k).mpr hk)⟩

theorem sameKeys_self (a : List String) : sameKeys a a = true := by
  rw [sameKeys_iff]
  intro k
  exact Iff.rfl

theorem getD_mem_of_lt (l : List String) (n : Nat) (d : String) (h : n < l.length) :
    l.getD n d ∈ l := by
  rw [List.getD_eq_getElem?_getD, List.getElem?_eq_getElem h]
  exact List.getElem_mem h

theorem byIndex_eq_byKey (st : SessionState) (h : IndexConsistent st) :
    (getSliderMappingByIndex st.cm st.currentSliderIndex).1
      = (getSliderMappingByKey st.cm st.currentSliderName).1 := by
  obtain ⟨h1, h2, h3⟩ := h
  have hb : ¬ (st.currentSliderIndex < 0 ∨
      (st.cm.orderedSliderKeys.length : Int) ≤ st.currentSliderIndex) := by omega
  rw [getSliderMappingKeyByIndex, if_neg hb] at h3
  rw [getSliderMappingByIndex, if_neg hb, getSliderMappingByKey, ← h3]
  generalize st.cm.orderedSliderKeys.getD st.currentSliderIndex.toNat "" = key
  cases hlk : List.lookup key st.cm.config.sliderMappings with
  | none => simp [hlk]
  | some m => simp [hlk]

theorem handleToken_cm (st : SessionState) (token : String) :
    (handleToken st token).cm = st.cm := by
  unfold handleToken
  repeat' split
  all_goals rfl

theorem handleToken_numConsumers (st : SessionState) (token : String) :
    (handleToken st token).numConsumers = st.numConsumers := by
  unfold handleToken
  repeat' split
  all_goals rfl

theorem processLines_append (st : SessionState) (xs ys : List String) :
    processLines st (xs ++ ys) =
      ((processLines (processLines st xs).1 ys).1,
       (processLines st xs).2 ++ (processLines (processLines st xs).1 ys).2) := by
  induction xs generalizing st with
  | nil => simp [processLines]
  | cons x xs ih =>
    simp only [List.cons_append, processLines_cons, ih, List.append_assoc]

theorem filter_sendWb_trace (ev : SliderMoveEvent) (s : String) (m : SliderMapping) :
    ∀ (n i t : Nat),
      (((List.range' i n).flatMap
          (fun j => [Effect.send j ev, Effect.writeBack s m])).filter (isSendTo t))
        = if i ≤ t ∧ t < i + n then [Effect.send t ev] else [] := by
  intro n
  induction n with
  | zero =>
    intro i t
    rw [if_neg (by omega)]
    simp
  | succ n ih =>
    intro i t
    rw [List.range'_succ]
    simp only [List.flatMap_cons, List.filter_append, List.filter_cons, List.filter_nil, ih]
    by_cases ht : t = i
    · subst ht
      simp only [isSendTo, decide_True, if_true, decide_False, if_false]
      rw [if_neg (by omega : ¬ (t + 1 ≤ t ∧ t < t + 1 + n)),
          if_pos (by omega : t ≤ t ∧ t < t + (n + 1))]
      simp [isSendTo]
    · have hne : (i = t) = False := by
        simp only [eq_iff_iff, iff_false]
        exact fun h => ht h.symm
      simp only [isSendTo, hne, decide_False, Bool.false_eq_true, if_false]
      have hiff : (i + 1 ≤ t ∧ t < i + 1 + n) ↔ (i ≤ t ∧ t < i + (n + 1)) := by omega
      simp only [hiff, List.nil_append]

theorem heldRSteps (cm : ConfigManager) (nc : Nat) :
    ∀ (N : Nat) (idx : Int) (name : String) (w : Rat),
      ((processLines ⟨cm, idx, name, w, true, false, nc⟩
          (List.replicate (N + 1) "r\n")).1.currentSliderIndex
          = min (idx + (N + 1)) (min (getSliderMappingCount cm) 1024)) ∧
      ((processLines ⟨cm, idx, name, w, true, false, nc⟩
          (List.replicate (N + 1) "r\n")).1.cm = cm) ∧
      ((processLines ⟨cm, idx, name, w, true, false, nc⟩
          (List.replicate (N + 1) "r\n")).1.isButtonHeld = true) ∧
      ((processLines ⟨cm, idx, name, w, true, false, nc⟩
          (List.replicate (N + 1) "r\n")).1.needToUpdate = false) ∧
      ((processLines ⟨cm, idx, name, w, true, false, nc⟩
          (List.replicate (N + 1) "r\n")).1.numConsumers = nc) ∧
      ((processLines ⟨cm, idx, name, w, true, false, nc⟩
          (List.replicate (N + 1) "r\n")).2 = []) := by
  intro N
  induction N with
  | zero =>
    intro idx name w
    simp only [List.replicate_succ, List.replicate_zero, processLines_cons, processLines_nil,
      handleLine_r_held, List.append_nil]
    refine ⟨?_, trivial, trivial, trivial, trivial, trivial⟩
    have h1 : (if idx + 1 > 1024 then 1024 else idx + 1) = min (idx + 1) 1024 := by
      split <;> omega
    rw [h1]
    split <;> omega
  | succ N ih =>
    intro idx name w
    rw [List.replicate_succ]
    simp only [processLines_cons, handleLine_r_held]
    obtain ⟨hidx, hcm, hheld, hntu, hnc, htr⟩ :=
      ih (if (if idx + 1 > 1024 then 1024 else idx + 1) > getSliderMappingCount cm then
            getSliderMappingCount cm
          else if idx + 1 > 1024 then 1024 else idx + 1)
        (getSliderMappingKeyByIndex cm
          (if (if idx + 1 > 1024 then 1024 else idx + 1) > getSliderMappingCount cm then
            getSliderMappingCount cm
          else if idx + 1 > 1024 then 1024 else idx + 1)).1
        (getSliderMappingByIndex cm
          (if (if idx + 1 > 1024 then 1024 else idx + 1) > getSliderMappingCount cm then
            getSliderMappingCount cm
          else if idx + 1 > 1024 then 1024 else idx + 1)).1.volume
    refine ⟨?_, hcm, hheld, hntu, hnc, by simp [htr]⟩
    rw [hidx]
    have h1 : (if idx + 1 > 1024 then 1024 else idx + 1) = min (idx + 1) 1024 := by
      split <;> omega
    rw [h1]
    split <;> omega

theorem heldLSteps (cm : ConfigManager) (nc : Nat) :
    ∀ (N : Nat) (idx : Int) (name : String) (w : Rat),
      ((processLines ⟨cm, idx, name, w, true, false, nc⟩
          (List.replicate (N + 1) "l\n")).1.currentSliderIndex
          = max (idx - (N + 1)) 0) ∧
      ((processLines ⟨cm, idx, name, w, true, false, nc⟩
          (List.replicate (N + 1) "l\n")).1.cm = cm) ∧
      ((processLines ⟨cm, idx, name, w, true, false, nc⟩
          (List.replicate (N + 1) "l\n")).1.isButtonHeld = true) ∧
      ((processLines ⟨cm, idx, name, w, true, false, nc⟩
          (List.replicate (N + 1) "l\n")).1.needToUpdate = false) ∧
      ((processLines ⟨cm, idx, name, w, true, false, nc⟩
          (List.replicate (N + 1) "l\n")).1.numConsumers = nc) ∧
      ((processLines ⟨cm, idx, name, w, true, false, nc⟩
          (List.replicate (N + 1) "l\n")).2 = []) := by
  intro N
  induction N with
  | zero =>
    intro idx name w
    simp only [List.replicate_succ, List.replicate_zero, processLines_cons, processLines_nil,
      handleLine_l_held, List.append_nil]
    refine ⟨?_, trivial, trivial, trivial, trivial, trivial⟩
    split <;> omega
  | succ N ih =>
    intro idx name w
    rw [List.replicate_succ]
    simp only [processLines_cons, handleLine_l_held]
    obtain ⟨hidx, hcm, hheld, hntu, hnc, htr⟩ :=
      ih (if idx - 1 < 0 then 0 else idx - 1)
        (getSliderMappingKeyByIndex cm (if idx - 1 < 0 then 0 else idx - 1)).1
        (getSliderMappingByIndex cm (if idx - 1 < 0 then 0 else idx - 1)).1.volume
    refine ⟨?_, hcm, hheld, hntu, hnc, by simp only [List.nil_append, htr]⟩
    rw [hidx]
    split <;> omega

theorem decodeSliderMappingFields_unknown :
    ∀ (fields : List (String × YamlValue)) (m : SliderMapping) (fk : String) (fv : YamlValue),
      (fk, fv) ∈ fields → fk ∉ knownSliderMappingKeys →
      (decodeSliderMappingFields m fields).2 = true := by
  intro fields
  induction fields with
  | nil => intro m fk fv h _; simp at h
  | cons p rest ih =>
    obtain ⟨k, v⟩ := p
    intro m fk fv hmem hunk
    simp only [knownSliderMappingKeys, List.mem_cons, List.mem_singleton, not_or,
      List.not_mem_nil, or_false] at hunk
    obtain ⟨h1, h2, h3⟩ := hunk
    rcases List.mem_cons.mp hmem with heq | hrest
    · obtain ⟨hk, hv⟩ := Prod.mk.injEq fk fv k v ▸ heq
      subst hk
      simp [decodeSliderMappingFields, h1, h2, h3]
    · simp only [decodeSliderMappingFields]
      repeat' split
      all_goals
        first
          | rfl
          | exact ih _ _ _ hrest (by simp [knownSliderMappingKeys, h1, h2, h3])
          | simp [ih _ _ _ hrest (by simp [knownSliderMappingKeys, h1, h2, h3])]

theorem decodeConnectionInfoFields_unknown :
    ∀ (kvs : List (String × YamlValue)) (ci : ConnectionInfo) (fk : String) (fv : YamlValue),
      (fk, fv) ∈ kvs → fk ∉ knownConnectionInfoKeys →
      (decodeConnectionInfoFields ci kvs).2 = true := by
  intro kvs
  induction kvs with
  | nil => intro ci fk fv h _; simp at h
  | cons p rest ih =>
    obtain ⟨k, v⟩ := p
    intro ci fk fv hmem hunk
    simp only [knownConnectionInfoKeys, List.mem_cons, List.mem_singleton, not_or,
      List.not_mem_nil, or_false] at hunk
    obtain ⟨h1, h2⟩ := hunk
    rcases List.mem_cons.mp hmem with heq | hrest
    · obtain ⟨hk, hv⟩ := Prod.mk.injEq fk fv k v ▸ heq
      subst hk
      simp [decodeConnectionInfoFields, h1, h2]
    · simp only [decodeConnectionInfoFields]
      repeat' split
      all_goals
        first
          | rfl
          | exact ih _ _ _ hrest (by simp [knownConnectionInfoKeys, h1, h2])

theorem decodeSliderMappings_unknownField :
    ∀ (kvs : List (String × YamlValue)) (name : String) (fields : List (String × YamlValue))
      (fk : String) (fv : YamlValue),
      (name, YamlValue.ymap fields) ∈ kvs → (fk, fv) ∈ fields → fk ∉ knownSliderMappingKeys →
      (decodeSliderMappings kvs).2 = true := by
  intro kvs
  induction kvs with
  | nil => intro name fields fk fv h _ _; simp at h
  | cons p rest ih =>
    intro name fields fk fv hmem hf hunk
    rcases List.mem_cons.mp hmem with heq | hrest
    · rw [← heq]
      simp [decodeSliderMappings, decodeSliderMappingFields_unknown fields _ fk fv hf hunk]
    · obtain ⟨n2, v2⟩ := p
      cases v2 with
      | ymap f2 => simp [decodeSliderMappings, ih _ _ _ _ hrest hf hunk]
      | ynum q => rfl
      | ystr s => rfl
      | ybool b => rfl
      | ylist l => rfl

theorem decodeConfigFields_unknownTop :
    ∀ (entries : List (String × YamlValue)) (cfg : Config) (k : String) (v : YamlValue),
      (k, v) ∈ entries → k ∉ knownTopLevelKeys →
      (decodeConfigFields cfg entries).2 = true := by
  intro entries
  induction entries with
  | nil => intro cfg k v h _; simp at h
  | cons p rest ih =>
    obtain ⟨k0, v0⟩ := p
    intro cfg k v hmem hunk
    simp only [knownTopLevelKeys, List.mem_cons, List.mem_singleton, not_or,
      List.not_mem_nil, or_false] at hunk
    obtain ⟨h1, h2, h3, h4, h5⟩ := hunk
    rcases List.mem_cons.mp hmem with heq | hrest
    · obtain ⟨hk, hv⟩ := Prod.mk.injEq k v k0 v0 ▸ heq
      subst hk
      simp [decodeConfigFields, h1, h2, h3, h4, h5]
    · simp only [decodeConfigFields]
      repeat' split
      all_goals
        first
          | rfl
          | exact ih _ _ _ hrest (by simp [knownTopLevelKeys, h1, h2, h3, h4, h5])
          | simp [ih _ _ _ hrest (by simp [knownTopLevelKeys, h1, h2, h3, h4, h5])]

theorem decodeConfigFields_nestedSliderUnknown :
    ∀ (entries : List (String × YamlValue)) (cfg : Config) (kvs : List (String × YamlValue))
      (name : String) (fields : List (String × YamlValue)) (fk : String) (fv : YamlValue),
      ("slider_mappings", YamlValue.ymap kvs) ∈ entries →
      (name, YamlValue.ymap fields) ∈ kvs → (fk, fv) ∈ fields →
      fk ∉ knownSliderMappingKeys →
      (decodeConfigFields cfg entries).2 = true := by
  intro entries
  induction entries with
  | nil => intro cfg kvs name fields fk fv h _ _ _; simp at h
  | cons p rest ih =>
    intro cfg kvs name fields fk fv hmem hn hf hunk
    rcases List.mem_cons.mp hmem with heq | hrest
    · rw [← heq]
      simp [decodeConfigFields,
        decodeSliderMappings_unknownField kvs name fields fk fv hn hf hunk]
    · simp only [decodeConfigFields]
      repeat' split
      all_goals
        first
          | rfl
          | exact ih _ _ _ _ _ _ hrest hn hf hunk
          | simp [ih _ _ _ _ _ _ hrest hn hf hunk]

theorem decodeConfigFields_nestedConnUnknown :
    ∀ (entries : List (String × YamlValue)) (cfg : Config) (kvs : List (String × YamlValue))
      (fk : String) (fv : YamlValue),
      ("connection_info", YamlValue.ymap kvs) ∈ entries →
      (fk, fv) ∈ kvs → fk ∉ knownConnectionInfoKeys →
      (decodeConfigFields cfg entries).2 = true := by
  intro entries
  induction entries with
  | nil => intro cfg kvs fk fv h _ _; simp at h
  | cons p rest ih =>
    intro cfg kvs fk fv hmem hf hunk
    rcases List.mem_cons.mp hmem with heq | hrest
    · rw [← heq]
      simp [decodeConfigFields,
        decodeConnectionInfoFields_unknown kvs _ fk fv hf hunk]
    · simp only [decodeConfigFields]
      repeat' split
      all_goals
        first
          | rfl
          | exact ih _ _ _ _ hrest hf hunk
          | simp [ih _ _ _ _ hrest hf hunk]

/-! ## Claims -/

/-- C9: every input line that is not exactly one character from `{l,r,u,d}`
followed by a single line-feed (e.g. "xq\n" or a CRLF-terminated token) is
discarded by `handleLine`: the whole session state (interpretation variables
and configuration) is unchanged and no `SliderMoveEvent` is emitted. -/
theorem c9_malformed_line_inert (st : SessionState) (line : String)
    (h : expectedLinePatternMatch line = false) :
    handleLine st line = (st, []) := by
  simp [handleLine, h]

theorem c9_malformed_line_inert_witness :
    (expectedLinePatternMatch "xq\n" = false ∧ handleLine (stABC 1) "xq\n" = (stABC 1, [])) ∧
    (expectedLinePatternMatch "l\r\n" = false ∧ handleLine (stABC 1) "l\r\n" = (stABC 1, [])) :=
  ⟨⟨by decide, c9_malformed_line_inert (stABC 1) "xq\n" (by decide)⟩,
   ⟨by decide, c9_malformed_line_inert (stABC 1) "l\r\n" (by decide)⟩⟩

/-- C1 counterexample: `Load` with a decode failure (here: unparseable
content) returns an error, yet the in-memory `Config` afterwards is NOT the
previous one — line 86 of config.go overwrites `cm.Config` with the fresh
defaults struct before decoding. This refutes the claim that any failing
`Load()` leaves the previous in-memory `Config` untouched. -/
theorem c1_atomicity_counterexample :
    (load cmABC FileState.malformed).result = some LoadError.decodeFailed ∧
    (load cmABC FileState.malformed).cm.config ≠ cmABC.config := by
  constructor
  · rfl
  · with_unfolding_all decide

/-- C1 amended: an open failure (file absent or other open error) leaves the
manager untouched. A decode-stage failure does NOT retain the previous
`Config`: the in-memory `Config` was already replaced (line 86) by the
defaults-initialized struct, which the partial decode then overlays with
every field that decoded successfully — so the resulting `Config` depends
only on the defaults and the file, never on the previous `Config` (shown by
quantifying over a second manager), and after an outright parse failure it
is exactly the defaults struct; the ordered key sequence is left stale on
any decode-stage failure. Only a successful load additionally rebuilds the
key sequence. The final conjunct exhibits the partial overlay: a document
with a valid `slider_mappings` section next to an unknown key fails to load
yet leaves the decoded mapping in memory. -/
theorem c1_amended_load_failure_effects (cm cm' : ConfigManager) (file : FileState) :
    ((load cm file).result = some LoadError.notFound ∨
      (load cm file).result = some LoadError.openFailed → (load cm file).cm = cm) ∧
    ((load cm file).result = some LoadError.decodeFailed →
      (load cm file).cm.orderedSliderKeys = cm.orderedSliderKeys ∧
      (load cm file).cm.config = (load cm' file).cm.config) ∧
    ((load cm FileState.malformed).cm.config = defaultConfig) ∧
    ((load cm file).result = none →
      (load cm file).cm.orderedSliderKeys
        = (load cm file).cm.config.sliderMappings.map Prod.fst ∧
      (load cm file).cm.config = (load cm' file).cm.config) ∧
    ((load cm (FileState.doc
        [("slider_mappings",
          YamlValue.ymap [("master", YamlValue.ymap [("volume", YamlValue.ynum 1)])]),
         ("bogus", YamlValue.ybool true)])).result = some LoadError.decodeFailed ∧
     (load cm (FileState.doc
        [("slider_mappings",
          YamlValue.ymap [("master", YamlValue.ymap [("volume", YamlValue.ynum 1)])]),
         ("bogus", YamlValue.ybool true)])).cm.config.sliderMappings
       = [("master", { volume := 1, muted := false, targets := [] })]) := by
  refine ⟨?_, ?_, rfl, ?_, ?_, ?_⟩
  · cases file with
    | absent => intro h; rfl
    | openFailure e => intro h; rfl
    | malformed => intro h; rcases h with h | h <;> simp [load] at h
    | doc entries =>
      intro h
      cases hflag : (decodeConfigFields defaultConfig entries).2 with
      | true => rcases h with h | h <;> simp [load, hflag] at h
      | false => rcases h with h | h <;> simp [load, hflag] at h
  · cases file with
    | absent => intro h; simp [load] at h
    | openFailure e => intro h; simp [load] at h
    | malformed => intro h; exact ⟨rfl, rfl⟩
    | doc entries =>
      intro h
      cases hflag : (decodeConfigFields defaultConfig entries).2 with
      | true => simp [load, hflag]
      | false => simp [load, hflag] at h
  · cases file with
    | absent => intro h; simp [load] at h
    | openFailure e => intro h; simp [load] at h
    | malformed => intro h; simp [load] at h
    | doc entries =>
      intro h
      cases hflag : (decodeConfigFields defaultConfig entries).2 with
      | true => simp [load, hflag] at h
      | false => simp [load, hflag]
  · with_unfolding_all rfl
  · with_unfolding_all rfl

theorem c1_amended_load_failure_effects_witness :
    (load cmABC FileState.absent).cm = cmABC ∧
    ((load cmABC FileState.malformed).cm.orderedSliderKeys = cmABC.orderedSliderKeys ∧
     (load cmABC FileState.malformed).cm.config = (load cmBig FileState.malformed).cm.config) :=
  ⟨(c1_amended_load_failure_effects cmABC cmBig FileState.absent).1 (Or.inl rfl),
   (c1_amended_load_failure_effects cmABC cmBig FileState.malformed).2.1 rfl⟩

/-- C7: evaluation of the code at the spec's startup scenario. The freshly
started session (package-variable initial values) over the
master/game/chat configuration receives `r`: the code does NOT raise master
to 0.51 — `currentSliderName` is still the zero value `""`, so the code reads
the zero `SliderMapping`, computes 0 + 0.01 = 0.01, emits the event for
slider `""` with value 0.01, and write-back inserts a bogus `""` entry, while
master stays at 0.5. The subsequent `d`,`r`,`u` and `l` steps do behave as the
scenario says (select "game", no event; then one event for "game" at 0.49). -/
theorem c7_startup_scenario_divergence :
    ((handleLine stFresh "r\n").2
      = [Effect.send 0 ⟨"", 1/100⟩, Effect.writeBack "" ⟨1/100, false, []⟩]) ∧
    (List.lookup "master" (handleLine stFresh "r\n").1.cm.config.sliderMappings
      = some ⟨1/2, false, ["master"]⟩) ∧
    ((handleLine stFresh "r\n").1.currentSliderName = "") ∧
    (let st4 := (processLines stFresh ["r\n", "d\n", "r\n", "u\n"]).1
     st4.currentSliderName = "game" ∧
     (processLines stFresh ["d\n", "r\n", "u\n"]).2 = [] ∧
     (handleLine st4 "l\n").2
       = [Effect.send 0 ⟨"game", 49/100⟩, Effect.writeBack "game" ⟨49/100, false, ["game.exe"]⟩]) := by
  with_unfolding_all decide

/-- C3 counterexample: in a consistent two-subscriber session, an `r` token
that changes the value produces the trace
send-to-0, write-back, send-to-1, write-back: the write-back happens AFTER
the delivery to a subscriber, and it happens once per subscriber (twice
here), not exactly once per event. -/
theorem c3_writeback_counterexample :
    countWriteBacks (handleLine (stABC 2) "r\n").2 = 2 ∧
    (handleLine (stABC 2) "r\n").2.head? = some (Effect.send 0 ⟨"master", 51/100⟩) := by
  with_unfolding_all decide

/-- C3 amended: when a handled token produces a move event, then for each
subscriber in subscription order the event is first delivered to that
subscriber and the new value is then written back into the `ConfigManager`;
the write-back occurs once per subscriber (hence not at all when there are
zero subscribers), each write-back carrying the read-modify-write mapping. -/
theorem c3_amended_writeback_per_subscriber (st : SessionState) (line : String)
    (ev : SliderMoveEvent)
    (hmatch : expectedLinePatternMatch line = true)
    (hev : computeMoveEvents (handleToken st (trimSuffixLF line)) = [ev]) :
    (handleLine st line).2 =
      (List.range' 0 st.numConsumers).flatMap
        (fun j => [Effect.send j ev, Effect.writeBack ev.sliderID (wbMapping st.cm ev)]) := by
  have hcm := handleToken_cm st (trimSuffixLF line)
  have hnc := handleToken_numConsumers st (trimSuffixLF line)
  simp [handleLine, hmatch, hev, hcm, hnc, fanoutFrom_single_trace]

theorem c3_amended_writeback_per_subscriber_witness :
    (handleLine (stABC 1) "r\n").2 =
      (List.range' 0 (stABC 1).numConsumers).flatMap
        (fun j => [Effect.send j ⟨"master", 51/100⟩,
                   Effect.writeBack "master" (wbMapping (stABC 1).cm ⟨"master", 51/100⟩)]) :=
  c3_amended_writeback_per_subscriber (stABC 1) "r\n" ⟨"master", 51/100⟩ (by decide)
    (by with_unfolding_all decide)

/-- C2 counterexample: from a consistent manager,
`UpdateSliderMappingByKey` with a key not currently in the mapping inserts
the key into the Go map but not into the ordered key slice, so the key sets
no longer agree — the claimed invariant is not preserved by every mutation. -/
theorem c2_keyset_counterexample :
    sameKeys (keysOf cmABC) cmABC.orderedSliderKeys = true ∧
    sameKeys (keysOf (updateSliderMappingByKey cmABC "new" ⟨3/4, false, []⟩))
      (updateSliderMappingByKey cmABC "new" ⟨3/4, false, []⟩).orderedSliderKeys = false := by
  with_unfolding_all decide

/-- C2 amended: the key-set equality holds after every successful `Load` and
is preserved by `UpdateSliderMappingByKey` when the key is already in the
mapping, and by `UpdateSliderMappingByIndex` at a valid index; a call of
`UpdateSliderMappingByKey` with a fresh key breaks it. -/
theorem c2_amended_keyset_invariant (cm cm' : ConfigManager) (file : FileState)
    (key : String) (m : SliderMapping) (idx : Int)
    (hload : (load cm file).result = none)
    (hinv : sameKeys (keysOf cm) cm.orderedSliderKeys = true)
    (hkey : key ∈ keysOf cm)
    (hidx : updateSliderMappingByIndex cm idx m = some cm') :
    sameKeys (keysOf (load cm file).cm) (load cm file).cm.orderedSliderKeys = true ∧
    sameKeys (keysOf (updateSliderMappingByKey cm key m))
      (updateSliderMappingByKey cm key m).orderedSliderKeys = true ∧
    sameKeys (keysOf cm') cm'.orderedSliderKeys = true := by
  refine ⟨?_, ?_, ?_⟩
  · cases file with
    | absent => simp [load] at hload
    | openFailure e => simp [load] at hload
    | malformed => simp [load] at hload
    | doc entries =>
      cases hflag : (decodeConfigFields defaultConfig entries).2 with
      | true => simp [load, hflag] at hload
      | false => simp [load, hflag, keysOf, sameKeys_self]
  · simp only [updateSliderMappingByKey, keysOf]
    rw [mapFst_mapInsert_of_mem key m cm.config.sliderMappings hkey]
    exact hinv
  · rw [updateSliderMappingByIndex] at hidx
    split at hidx
    · rename_i hcond
      obtain ⟨hc1, hc2⟩ := hcond
      have hlt : idx.toNat < cm.orderedSliderKeys.length := by omega
      have hmemO : cm.orderedSliderKeys.getD idx.toNat "" ∈ cm.orderedSliderKeys :=
        getD_mem_of_lt _ _ _ hlt
      have hmemK : cm.orderedSliderKeys.getD idx.toNat "" ∈ keysOf cm :=
        ((sameKeys_iff _ _).mp hinv _).mpr hmemO
      have hcm' : cm' = updateSliderMappingByKey cm (cm.orderedSliderKeys.getD idx.toNat "") m := by
        exact (Option.some.injEq _ _ ▸ hidx).symm
      rw [hcm']
      simp only [updateSliderMappingByKey, keysOf]
      rw [mapFst_mapInsert_of_mem _ m cm.config.sliderMappings hmemK]
      exact hinv
    · exact absurd hidx (by simp)

theorem c2_amended_keyset_invariant_witness :
    sameKeys (keysOf (load cmABC (FileState.doc [])).cm)
      (load cmABC (FileState.doc [])).cm.orderedSliderKeys = true ∧
    sameKeys (keysOf (updateSliderMappingByKey cmABC "master" ⟨1/4, false, []⟩))
      (updateSliderMappingByKey cmABC "master" ⟨1/4, false, []⟩).orderedSliderKeys = true ∧
    sameKeys (keysOf (updateSliderMappingByKey cmABC "master" ⟨1/4, false, []⟩))
      (updateSliderMappingByKey cmABC "master" ⟨1/4, false, []⟩).orderedSliderKeys = true :=
  c2_amended_keyset_invariant cmABC
    (updateSliderMappingByKey cmABC "master" ⟨1/4, false, []⟩)
    (FileState.doc []) "master" ⟨1/4, false, []⟩ 0
    rfl (by decide) (by decide) (by with_unfolding_all rfl)

/-- C8: `Load` fails with the not-found condition and raises the user-facing
notification exactly when the file is absent; other open failures and decode
failures raise no notification; unparseable content fails with the decode
condition; and an unknown key - top-level, inside a slider mapping, or
inside `connection_info` - makes the decode stage fail (KnownFields(true))
instead of being ignored. -/
theorem c8_load_failure_taxonomy (cm : ConfigManager) (e : String)
    (entries : List (String × YamlValue)) :
    ((load cm FileState.absent).result = some LoadError.notFound ∧
     (load cm FileState.absent).notified = true) ∧
    ((load cm (FileState.openFailure e)).notified = false ∧
     (load cm (FileState.openFailure e)).result ≠ some LoadError.notFound) ∧
    ((load cm FileState.malformed).result = some LoadError.decodeFailed ∧
     (load cm FileState.malformed).notified = false) ∧
    ((load cm (FileState.doc entries)).notified = false) ∧
    (∀ k v, (k, v) ∈ entries → k ∉ knownTopLevelKeys →
      (load cm (FileState.doc entries)).result = some LoadError.decodeFailed) ∧
    (∀ kvs name fields fk fv, ("slider_mappings", YamlValue.ymap kvs) ∈ entries →
      (name, YamlValue.ymap fields) ∈ kvs → (fk, fv) ∈ fields →
      fk ∉ knownSliderMappingKeys →
      (load cm (FileState.doc entries)).result = some LoadError.decodeFailed) ∧
    (∀ kvs fk fv, ("connection_info", YamlValue.ymap kvs) ∈ entries →
      (fk, fv) ∈ kvs → fk ∉ knownConnectionInfoKeys →
      (load cm (FileState.doc entries)).result = some LoadError.decodeFailed) := by
  refine ⟨⟨rfl, rfl⟩, ⟨rfl, by simp [load]⟩, ⟨rfl, rfl⟩, ?_, ?_, ?_, ?_⟩
  · cases hflag : (decodeConfigFields defaultConfig entries).2 with
    | true => simp [load, hflag]
    | false => simp [load, hflag]
  · intro k v hmem hunk
    have hflag := decodeConfigFields_unknownTop entries defaultConfig k v hmem hunk
    simp only [load, hflag]
    rfl
  · intro kvs name fields fk fv hsm hn hf hunk
    have hflag := decodeConfigFields_nestedSliderUnknown entries defaultConfig kvs name fields
      fk fv hsm hn hf hunk
    simp only [load, hflag]
    rfl
  · intro kvs fk fv hci hf hunk
    have hflag := decodeConfigFields_nestedConnUnknown entries defaultConfig kvs
      fk fv hci hf hunk
    simp only [load, hflag]
    rfl

theorem c8_load_failure_taxonomy_witness :
    (load cmABC FileState.absent).notified = true ∧
    (load cmABC (FileState.doc [("slider_mapings", YamlValue.ybool true)])).result
      = some LoadError.decodeFailed ∧
    (load cmABC (FileState.doc
        [("slider_mappings", YamlValue.ymap
            [("master", YamlValue.ymap [("volme", YamlValue.ynum 1)])])])).result
      = some LoadError.decodeFailed ∧
    (load cmABC (FileState.doc
        [("connection_info", YamlValue.ymap [("serial_prt", YamlValue.ystr "COM3")])])).result
      = some LoadError.decodeFailed :=
  ⟨(c8_load_failure_taxonomy cmABC "" []).1.2,
   (c8_load_failure_taxonomy cmABC ""
      [("slider_mapings", YamlValue.ybool true)]).2.2.2.2.1
      "slider_mapings" (YamlValue.ybool true) (by simp) (by decide),
   (c8_load_failure_taxonomy cmABC ""
      [("slider_mappings", YamlValue.ymap
          [("master", YamlValue.ymap [("volme", YamlValue.ynum 1)])])]).2.2.2.2.2.1
      [("master", YamlValue.ymap [("volme", YamlValue.ynum 1)])]
      "master" [("volme", YamlValue.ynum 1)] "volme" (YamlValue.ynum 1)
      (by simp) (by simp) (by simp) (by decide),
   (c8_load_failure_taxonomy cmABC ""
      [("connection_info", YamlValue.ymap [("serial_prt", YamlValue.ystr "COM3")])]).2.2.2.2.2.2
      [("serial_prt", YamlValue.ystr "COM3")] "serial_prt" (YamlValue.ystr "COM3")
      (by simp) (by simp) (by decide)⟩

theorem fanout_frame_aux (cmv : ConfigManager) (name : String) (w' : Rat) (nc : Nat)
    (m : SliderMapping)
    (hm : List.lookup name cmv.config.sliderMappings = some m) :
    (∀ k, k ≠ name →
      List.lookup k (fanoutFrom cmv [⟨name, w'⟩] 0 nc).1.config.sliderMappings
        = List.lookup k cmv.config.sliderMappings) ∧
    (∃ m', List.lookup name (fanoutFrom cmv [⟨name, w'⟩] 0 nc).1.config.sliderMappings
        = some m' ∧ m'.muted = m.muted ∧ m'.targets = m.targets) := by
  rw [fanoutFrom_single_cm]
  by_cases hnc : nc = 0
  · subst hnc
    rw [if_pos rfl]
    exact ⟨fun k _ => rfl, ⟨m, hm, rfl, rfl⟩⟩
  · rw [if_neg hnc]
    have hget : (getSliderMappingByKey cmv name).1 = m := by
      simp [getSliderMappingByKey, hm]
    constructor
    · intro k hk
      simp only [updateSliderMappingByKey]
      exact lookup_mapInsert_ne name k _ hk cmv.config.sliderMappings
    · refine ⟨{ m with volume := w' }, ?_, rfl, rfl⟩
      simp only [updateSliderMappingByKey, wbMapping, hget]
      exact lookup_mapInsert_self name _ cmv.config.sliderMappings

/-- C10: when a volume-mode `l`/`r` token causes the write-back, only the
`Volume` field of the current slider's mapping changes: its `Muted` and
`Targets` fields are carried over from the mapping read by key, and every
other slider's mapping is untouched. -/
theorem c10_writeback_frame (st : SessionState) (line : String) (m : SliderMapping)
    (hheld : st.isButtonHeld = false)
    (hline : line = "l\n" ∨ line = "r\n")
    (hm : List.lookup st.currentSliderName st.cm.config.sliderMappings = some m) :
    (∀ k, k ≠ st.currentSliderName →
      List.lookup k (handleLine st line).1.cm.config.sliderMappings
        = List.lookup k st.cm.config.sliderMappings) ∧
    (∃ m', List.lookup st.currentSliderName (handleLine st line).1.cm.config.sliderMappings
        = some m' ∧ m'.muted = m.muted ∧ m'.targets = m.targets) := by
  obtain ⟨cmv, idx, name, w, held, ntu, nc⟩ := st
  dsimp only at hheld hm ⊢
  subst hheld
  rcases hline with h | h <;> subst h
  · rw [handleLine_l_vol]
    dsimp only
    split <;> split <;>
      first
        | exact fanout_frame_aux cmv name _ nc m hm
        | exact ⟨fun k _ => rfl, ⟨m, hm, rfl, rfl⟩⟩
  · rw [handleLine_r_vol]
    dsimp only
    split <;> split <;>
      first
        | exact fanout_frame_aux cmv name _ nc m hm
        | exact ⟨fun k _ => rfl, ⟨m, hm, rfl, rfl⟩⟩

theorem c10_writeback_frame_witness :
    (∀ k, k ≠ "master" →
      List.lookup k (handleLine (stABC 1) "r\n").1.cm.config.sliderMappings
        = List.lookup k (stABC 1).cm.config.sliderMappings) ∧
    (∃ m', List.lookup "master" (handleLine (stABC 1) "r\n").1.cm.config.sliderMappings
        = some m' ∧ m'.muted = false ∧ m'.targets = ["master"]) :=
  c10_writeback_frame (stABC 1) "r\n" ⟨1/2, false, ["master"]⟩ rfl (Or.inr rfl)
    (by with_unfolding_all decide)

/-- C4: for a handled `l`/`r` token in VolumeMode (button not held) in a
session whose cached slider name agrees with the current index, exactly one
`SliderMoveEvent` for the currently selected slider is delivered to each
subscriber if and only if the computed target value (old value ∓0.01,
clamped) differs from the previously stored value; when they are equal,
nothing is emitted at all. -/
theorem c4_emission_iff (st : SessionState)
    (hheld : st.isButtonHeld = false)
    (hcons : IndexConsistent st) :
    (let v := (getSliderMappingByKey st.cm st.currentSliderName).1.volume
     let wl := if v - 1/100 < 0 then 0 else v - 1/100
     let wr := if v + 1/100 > 1 then 1 else v + 1/100
     (wl ≠ v → ∀ i, i < st.numConsumers →
        ((handleLine st "l\n").2.filter (isSendTo i))
          = [Effect.send i ⟨st.currentSliderName, wl⟩]) ∧
     (wl = v → (handleLine st "l\n").2 = []) ∧
     (wr ≠ v → ∀ i, i < st.numConsumers →
        ((handleLine st "r\n").2.filter (isSendTo i))
          = [Effect.send i ⟨st.currentSliderName, wr⟩]) ∧
     (wr = v → (handleLine st "r\n").2 = [])) := by
  have hbk := byIndex_eq_byKey st hcons
  obtain ⟨cmv, idx, name, w, held, ntu, nc⟩ := st
  dsimp only at hheld hbk ⊢
  subst hheld
  refine ⟨?_, ?_, ?_, ?_⟩
  · intro hne i hi
    rw [handleLine_l_vol]
    dsimp only
    rw [hbk, if_pos hne]
    dsimp only
    rw [fanoutFrom_single_trace, filter_sendWb_trace, if_pos (by omega : 0 ≤ i ∧ i < 0 + nc)]
  · intro heq
    rw [handleLine_l_vol]
    dsimp only
    rw [hbk, if_neg (not_not_intro heq)]
  · intro hne i hi
    rw [handleLine_r_vol]
    dsimp only
    rw [hbk, if_pos hne]
    dsimp only
    rw [fanoutFrom_single_trace, filter_sendWb_trace, if_pos (by omega : 0 ≤ i ∧ i < 0 + nc)]
  · intro heq
    rw [handleLine_r_vol]
    dsimp only
    rw [hbk, if_neg (not_not_intro heq)]

theorem c4_emission_iff_witness :
    IndexConsistent (stABC 1) ∧
    ((handleLine (stABC 1) "r\n").2.filter (isSendTo 0)
      = [Effect.send 0 ⟨"master", 51/100⟩]) :=
  ⟨by unfold IndexConsistent; decide,
   by with_unfolding_all
        exact (c4_emission_iff (stABC 1) rfl (by unfold IndexConsistent; decide)).2.2.1
          (by decide) 0 (by decide)⟩

theorem mem_of_lookup_some :
    ∀ (l : List (String × SliderMapping)) (k : String) (m : SliderMapping),
      List.lookup k l = some m → (k, m) ∈ l := by
  intro l
  induction l with
  | nil => intro k m h; simp [List.lookup] at h
  | cons p rest ih =>
    intro k m h
    obtain ⟨k0, v0⟩ := p
    rw [List.lookup_cons] at h
    cases hbe : (k == k0) with
    | true =>
      rw [hbe] at h
      simp only [cond_true, Option.some.injEq] at h
      subst h
      have : k = k0 := beq_iff_eq.mp hbe
      subst this
      exact List.mem_cons_self _ _
    | false =>
      rw [hbe] at h
      simp only [cond_false] at h
      exact List.mem_cons_of_mem _ (ih k m h)

theorem byKey_volume_range (cm : ConfigManager) (name : String)
    (h : VolumesInRange cm) :
    0 ≤ (getSliderMappingByKey cm name).1.volume ∧
    (getSliderMappingByKey cm name).1.volume ≤ 1 := by
  unfold getSliderMappingByKey
  cases hlk : List.lookup name cm.config.sliderMappings with
  | none => simp [zeroSliderMapping]
  | some m =>
    simp only
    exact h (name, m) (mem_of_lookup_some _ _ _ hlk)

theorem fanout_volumes_range (cmv : ConfigManager) (name : String) (w' : Rat) (nc : Nat)
    (h : VolumesInRange cmv) (hw : 0 ≤ w' ∧ w' ≤ 1) :
    VolumesInRange (fanoutFrom cmv [⟨name, w'⟩] 0 nc).1 := by
  rw [fanoutFrom_single_cm]
  by_cases hnc : nc = 0
  · subst hnc
    rw [if_pos rfl]
    exact h
  · rw [if_neg hnc]
    intro p hp
    exact mapInsert_forall_volume (fun sm => 0 ≤ sm.volume ∧ sm.volume ≤ 1)
      name (wbMapping cmv ⟨name, w'⟩) hw cmv.config.sliderMappings h p hp

theorem ite_clamp_lower (x : Rat) : (if x < 0 then 0 else x) = max x 0 := by
  rcases lt_or_ge x 0 with h | h
  · rw [if_pos h, max_eq_right h.le]
  · rw [if_neg (not_lt.mpr h), max_eq_left h]

theorem ite_clamp_upper (x : Rat) : (if x > 1 then 1 else x) = min x 1 := by
  rcases lt_or_ge 1 x with h | h
  · rw [if_pos h, min_eq_right h.le]
  · rw [if_neg (not_lt.mpr h), min_eq_left h]

theorem volModeStep (st : SessionState) (line : String)
    (hline : line = "l\n" ∨ line = "r\n")
    (hheld : st.isButtonHeld = false)
    (hvol : VolumesInRange st.cm) :
    VolumesInRange (handleLine st line).1.cm ∧
    (0 ≤ (handleLine st line).1.wantedValue ∧ (handleLine st line).1.wantedValue ≤ 1) ∧
    (handleLine st line).1.isButtonHeld = false := by
  obtain ⟨cmv, idx, name, w, held, ntu, nc⟩ := st
  dsimp only at hheld hvol ⊢
  subst hheld
  have hv := byKey_volume_range cmv name hvol
  rcases hline with h | h <;> subst h
  · rw [handleLine_l_vol]
    dsimp only
    have hwl : 0 ≤ (if (getSliderMappingByKey cmv name).1.volume - 1/100 < 0 then 0
        else (getSliderMappingByKey cmv name).1.volume - 1/100) ∧
        (if (getSliderMappingByKey cmv name).1.volume - 1/100 < 0 then 0
        else (getSliderMappingByKey cmv name).1.volume - 1/100) ≤ 1 := by
      constructor <;> split <;> linarith [hv.1, hv.2]
    by_cases hne : (if (getSliderMappingByKey cmv name).1.volume - 1/100 < 0 then (0:Rat)
        else (getSliderMappingByKey cmv name).1.volume - 1/100)
        ≠ (getSliderMappingByIndex cmv idx).1.volume
    · rw [if_pos hne]
      exact ⟨fanout_volumes_range cmv name _ nc hvol hwl, hwl, rfl⟩
    · rw [if_neg hne]
      exact ⟨hvol, hwl, rfl⟩
  · rw [handleLine_r_vol]
    dsimp only
    have hwr : 0 ≤ (if (getSliderMappingByKey cmv name).1.volume + 1/100 > 1 then 1
        else (getSliderMappingByKey cmv name).1.volume + 1/100) ∧
        (if (getSliderMappingByKey cmv name).1.volume + 1/100 > 1 then 1
        else (getSliderMappingByKey cmv name).1.volume + 1/100) ≤ 1 := by
      constructor <;> split <;> linarith [hv.1, hv.2]
    by_cases hne : (if (getSliderMappingByKey cmv name).1.volume + 1/100 > 1 then (1:Rat)
        else (getSliderMappingByKey cmv name).1.volume + 1/100)
        ≠ (getSliderMappingByIndex cmv idx).1.volume
    · rw [if_pos hne]
      exact ⟨fanout_volumes_range cmv name _ nc hvol hwr, hwr, rfl⟩
    · rw [if_neg hne]
      exact ⟨hvol, hwr, rfl⟩

theorem volModeRun (lines : List String) :
    ∀ st : SessionState, (∀ l ∈ lines, l = "l\n" ∨ l = "r\n") →
      VolumesInRange st.cm → (0 ≤ st.wantedValue ∧ st.wantedValue ≤ 1) →
      st.isButtonHeld = false →
      VolumesInRange (processLines st lines).1.cm ∧
      (0 ≤ (processLines st lines).1.wantedValue ∧
        (processLines st lines).1.wantedValue ≤ 1) ∧
      (processLines st lines).1.isButtonHeld = false := by
  induction lines with
  | nil =>
    intro st _ h1 h2 h3
    exact ⟨h1, h2, h3⟩
  | cons l rest ih =>
    intro st hl h1 h2 h3
    simp only [processLines_cons]
    have hstep := volModeStep st l (hl l (List.mem_cons_self _ _)) h3 h1
    exact ih _ (fun x hx => hl x (List.mem_cons_of_mem _ hx)) hstep.1 hstep.2.1 hstep.2.2

/-- C5: across any sequence of `l`/`r` tokens handled in VolumeMode starting
from a configuration whose volumes lie in [0,1], the computed target value
(`wantedValue`) stays within [0,1] after every prefix, all stored volumes
stay within [0,1], and each single token computes exactly
`old - 0.01` floored at 0 (`l`) resp. `old + 0.01` capped at 1 (`r`). -/
theorem c5_volume_range (st : SessionState) (lines pre suf : List String)
    (hvol : VolumesInRange st.cm)
    (hw : 0 ≤ st.wantedValue ∧ st.wantedValue ≤ 1)
    (hheld : st.isButtonHeld = false)
    (hlines : ∀ l ∈ lines, l = "l\n" ∨ l = "r\n")
    (hsplit : lines = pre ++ suf) :
    (0 ≤ (processLines st pre).1.wantedValue ∧ (processLines st pre).1.wantedValue ≤ 1) ∧
    VolumesInRange (processLines st pre).1.cm ∧
    ((handleLine st "l\n").1.wantedValue
      = max ((getSliderMappingByKey st.cm st.currentSliderName).1.volume - 1/100) 0) ∧
    ((handleLine st "r\n").1.wantedValue
      = min ((getSliderMappingByKey st.cm st.currentSliderName).1.volume + 1/100) 1) := by
  have hpre : ∀ l ∈ pre, l = "l\n" ∨ l = "r\n" :=
    fun l hl => hlines l (hsplit ▸ List.mem_append_left suf hl)
  have hrun := volModeRun pre st hpre hvol hw hheld
  refine ⟨hrun.2.1, hrun.1, ?_, ?_⟩
  · obtain ⟨cmv, idx, name, w, held, ntu, nc⟩ := st
    dsimp only at hheld ⊢
    subst hheld
    rw [handleLine_l_vol]
    dsimp only
    by_cases hne : (if (getSliderMappingByKey cmv name).1.volume - 1/100 < 0 then (0:Rat)
        else (getSliderMappingByKey cmv name).1.volume - 1/100)
        ≠ (getSliderMappingByIndex cmv idx).1.volume
    · rw [if_pos hne]
      exact ite_clamp_lower _
    · rw [if_neg hne]
      exact ite_clamp_lower _
  · obtain ⟨cmv, idx, name, w, held, ntu, nc⟩ := st
    dsimp only at hheld ⊢
    subst hheld
    rw [handleLine_r_vol]
    dsimp only
    by_cases hne : (if (getSliderMappingByKey cmv name).1.volume + 1/100 > 1 then (1:Rat)
        else (getSliderMappingByKey cmv name).1.volume + 1/100)
        ≠ (getSliderMappingByIndex cmv idx).1.volume
    · rw [if_pos hne]
      exact ite_clamp_upper _
    · rw [if_neg hne]
      exact ite_clamp_upper _

theorem c5_volume_range_witness :
    (0 ≤ (processLines (stABC 1) ["r\n"]).1.wantedValue ∧
      (processLines (stABC 1) ["r\n"]).1.wantedValue ≤ 1) ∧
    VolumesInRange (processLines (stABC 1) ["r\n"]).1.cm ∧
    ((handleLine (stABC 1) "l\n").1.wantedValue
      = max ((getSliderMappingByKey (stABC 1).cm (stABC 1).currentSliderName).1.volume - 1/100) 0) ∧
    ((handleLine (stABC 1) "r\n").1.wantedValue
      = min ((getSliderMappingByKey (stABC 1).cm (stABC 1).currentSliderName).1.volume + 1/100) 1) :=
  c5_volume_range (stABC 1) ["r\n", "l\n"] ["r\n"] ["l\n"]
    (by unfold VolumesInRange; with_unfolding_all decide)
    (by with_unfolding_all decide)
    rfl
    (by decide)
    rfl

/-- C6 counterexample: with 1025 configured sliders and current index 1024,
the sequence `d`,`r`,`u` leaves the index at 1024, not at
min(1024+1, slider count) = 1025 as claimed: the code additionally clamps
the channel index at the hard-coded constant 1024. -/
theorem c6_channel_select_counterexample :
    (processLines stBig ["d\n", "r\n", "u\n"]).1.currentSliderIndex = 1024 ∧
    ¬ ((processLines stBig ["d\n", "r\n", "u\n"]).1.currentSliderIndex
        = min (stBig.currentSliderIndex + (1 : Nat)) (getSliderMappingCount stBig.cm)) := by
  constructor
  · set_option maxRecDepth 100000 in with_unfolding_all decide
  · set_option maxRecDepth 100000 in with_unfolding_all decide

/-- C6 amended: from any state, `d` followed by N ≥ 1 `r` tokens and `u`
leaves the selected index at min(i + N, min(slider count, 1024)) — the
ceiling is the configured slider count additionally capped at the hard-coded
1024; `d` followed by N ≥ 1 `l` tokens and `u` leaves it at max(i − N, 0). -/
theorem c6_amended_channel_select_bounds (st : SessionState) (N : Nat) (hN : 1 ≤ N) :
    ((processLines st ("d\n" :: (List.replicate N "r\n" ++ ["u\n"]))).1.currentSliderIndex
      = min (st.currentSliderIndex + N) (min (getSliderMappingCount st.cm) 1024)) ∧
    ((processLines st ("d\n" :: (List.replicate N "l\n" ++ ["u\n"]))).1.currentSliderIndex
      = max (st.currentSliderIndex - N) 0) := by
  obtain ⟨M, rfl⟩ : ∃ M, N = M + 1 := ⟨N - 1, by omega⟩
  obtain ⟨cmv, idx, name, w, held, ntu, nc⟩ := st
  dsimp only
  constructor
  · obtain ⟨hidx, hcm, hheld2, hntu2, hnc2, htr⟩ := heldRSteps cmv nc M idx name w
    simp only [processLines_cons, handleLine_d, processLines_append, processLines_nil,
      handleLine_u]
    rw [hidx]
    omega
  · obtain ⟨hidx, hcm, hheld2, hntu2, hnc2, htr⟩ := heldLSteps cmv nc M idx name w
    simp only [processLines_cons, handleLine_d, processLines_append, processLines_nil,
      handleLine_u]
    rw [hidx]
    omega

theorem c6_amended_channel_select_bounds_witness :
    ((processLines (stABC 1) ("d\n" :: (List.replicate 2 "r\n" ++ ["u\n"]))).1.currentSliderIndex
      = min ((stABC 1).currentSliderIndex + (2 : Nat))
          (min (getSliderMappingCount (stABC 1).cm) 1024)) ∧
    ((processLines (stABC 1) ("d\n" :: (List.replicate 2 "l\n" ++ ["u\n"]))).1.currentSliderIndex
      = max ((stABC 1).currentSliderIndex - (2 : Nat)) 0) :=
  c6_amended_channel_select_bounds (stABC 1) 2 (by omega)
